import Mathlib

/-!
Verification of the NEST risk-scoring engine
(`src/frontend/src/lib/riskCalculator.ts` and related modules).

The engine is a fixed logistic-regression pipeline:
raw clinical observation → numeric feature vector (category-code tables
with JavaScript `|| default` fallback semantics) → z-score
standardization → logit/sigmoid probability → per-feature contributions,
normalization and sort → risk tier → result record.

Numbers are embedded as exact rationals (`ℚ`) for the computable core and
as reals (`ℝ`) where the code applies `Math.exp` / `Math.round`.
JavaScript-specific behaviours that matter are modelled explicitly:
`MAP[k] || d` falls back to `d` both when the key is absent and when the
stored value is `0` (falsy), and `a / b` with a zero denominator is
modelled as `none` (the code only ever hits `0 / 0`, i.e. `NaN`).

Display-only string fields of the result record (`displayValue`,
`riskLabel`, `riskFactors`, `recommendations`, `modelExplanation`) are
not modelled; every field we model is a function of the numeric feature
vector, exactly as in the source.
-/

namespace NEST

/-- The 12 model features, in the insertion order of the `COEFFICIENTS`
object literal (which is the iteration order of `Object.entries`). -/
inductive Feature
  | edad
  | imc
  | grado_histologi
  | tamano_tumoral
  | infiltracion_mi
  | afectacion_linf
  | infilt_estr_cervix
  | p53_ihq
  | recep_est_porcent
  | rece_de_Ppor
  | FIGO2023
  | mmr_deficient
deriving DecidableEq, Repr, Fintype

/-- Iteration order of `Object.entries(COEFFICIENTS)` in the source. -/
def FEATURES : List Feature :=
  [.edad, .imc, .grado_histologi, .tamano_tumoral, .infiltracion_mi,
   .afectacion_linf, .infilt_estr_cervix, .p53_ihq, .recep_est_porcent,
   .rece_de_Ppor, .FIGO2023, .mmr_deficient]

/-- Model coefficients v2 (riskCalculator.ts, `COEFFICIENTS`). -/
def COEFFICIENTS : Feature → ℚ
  | .edad => 0.019401
  | .imc => -0.448946
  | .grado_histologi => 1.36483
  | .tamano_tumoral => -0.099892
  | .infiltracion_mi => 0.245561
  | .afectacion_linf => 0.4828
  | .infilt_estr_cervix => 0.523317
  | .p53_ihq => -0.138595
  | .recep_est_porcent => -0.894299
  | .rece_de_Ppor => 1.354039
  | .FIGO2023 => 0.055177
  | .mmr_deficient => 0.257856

/-- Model intercept (riskCalculator.ts, `INTERCEPT`). -/
def INTERCEPT : ℚ := -1.018616

/-- Standardization means (riskCalculator.ts, `MEANS`). -/
def MEANS : Feature → ℚ
  | .edad => 61.8696
  | .imc => 30.8834
  | .grado_histologi => 1.2087
  | .tamano_tumoral => 3.7109
  | .infiltracion_mi => 1.1217
  | .afectacion_linf => 0.1913
  | .infilt_estr_cervix => 0.113
  | .p53_ihq => 1.3478
  | .recep_est_porcent => 82.4435
  | .rece_de_Ppor => 73.3913
  | .FIGO2023 => 3.6609
  | .mmr_deficient => 0.2087

/-- Standardization standard deviations (riskCalculator.ts, `STDS`). -/
def STDS : Feature → ℚ
  | .edad => 14.4514
  | .imc => 7.5748
  | .grado_histologi => 0.4064
  | .tamano_tumoral => 4.3651
  | .infiltracion_mi => 0.7706
  | .afectacion_linf => 0.3933
  | .infilt_estr_cervix => 0.3675
  | .p53_ihq => 0.7581
  | .recep_est_porcent => 21.4485
  | .rece_de_Ppor => 24.7645
  | .FIGO2023 => 4.0537
  | .mmr_deficient => 0.4064

/-- The `FEATURE_INFO` table (riskCalculator.ts), in its declaration order: for each
key, the display name and the importance weight.  Its key set covers all
12 coefficient keys, which is what makes the `if (!info) continue` guard
in `calculateRisk` never skip an entry. -/
def FEATURE_INFO : List (Feature × String × ℚ) :=
  [(.grado_histologi, ("Grado Histológico", 0.22)),
   (.afectacion_linf, ("LVSI", 0.15)),
   (.FIGO2023, ("Estadio FIGO 2023", 0.14)),
   (.infilt_estr_cervix, ("Infiltración Cervical", 0.12)),
   (.imc, ("IMC", 0.11)),
   (.mmr_deficient, ("MMR Deficiente", 0.10)),
   (.rece_de_Ppor, ("Receptores PR", 0.08)),
   (.recep_est_porcent, ("Receptores ER", 0.05)),
   (.infiltracion_mi, ("Infiltración Miometrial", 0.04)),
   (.tamano_tumoral, ("Tamaño Tumoral", 0.03)),
   (.edad, ("Edad", 0.02)),
   (.p53_ihq, ("p53 IHQ", 0.01))]

/-- Category-code tables (riskCalculator.ts). -/
def GRADO_MAP : List (String × ℚ) := [("grado1", 1), ("grado2", 2)]

def INFILTRACION_MAP : List (String × ℚ) :=
  [("sin", 0), ("menor50", 1), ("mayor50", 2), ("serosa", 3)]

def LVSI_MAP : List (String × ℚ) := [("no", 0), ("si", 1)]

def CERVIX_MAP : List (String × ℚ) :=
  [("no", 0), ("glandular", 1), ("estroma", 2)]

def P53_MAP : List (String × ℚ) :=
  [("normal", 1), ("aberrante", 2), ("nodisponible", 3)]

def MMR_MAP : List (String × ℚ) :=
  [("proficient", 0), ("deficient", 1), ("unknown", 0)]

def FIGO_MAP : List (String × ℚ) :=
  [("IA", 1), ("IB", 2), ("IC", 3), ("II", 4), ("IIIA", 5), ("IIIB", 6),
   ("IIIC1", 7), ("IIIC2", 8), ("IVA", 9), ("IVB", 10)]

/-- JavaScript `MAP[key] || d`: the fallback `d` is used both when `key`
is absent and when the stored value is `0` (a falsy number). -/
def lookupOr (m : List (String × ℚ)) (key : String) (d : ℚ) : ℚ :=
  match m.lookup key with
  | some v => if v = 0 then d else v
  | none => d

/-- The form data record (`FormData` in RiskForm).  `mmrStatus` is a
string field; the calculator evaluates `data.mmrStatus || "unknown"`, so
an empty string also falls back to `"unknown"`. -/
structure FormData where
  edad : ℚ
  imc : ℚ
  gradoHistologico : String
  tamanoTumoral : ℚ
  infiltracionMiometrial : String
  lvsi : String
  infiltracionCervical : String
  estadioFIGO : String
  p53 : String
  mmrStatus : String
  receptoresEstrogenos : ℚ
  receptoresProgesterona : ℚ
deriving DecidableEq, Repr

/-- The `numericData` object built at the top of `calculateRisk`,
viewed as a feature vector. -/
def numericData (data : FormData) : Feature → ℚ
  | .edad => data.edad
  | .imc => data.imc
  | .grado_histologi => lookupOr GRADO_MAP data.gradoHistologico 1
  | .tamano_tumoral => data.tamanoTumoral
  | .infiltracion_mi => lookupOr INFILTRACION_MAP data.infiltracionMiometrial 1
  | .afectacion_linf => lookupOr LVSI_MAP data.lvsi 0
  | .infilt_estr_cervix => lookupOr CERVIX_MAP data.infiltracionCervical 0
  | .p53_ihq => lookupOr P53_MAP data.p53 1
  | .recep_est_porcent => data.receptoresEstrogenos
  | .rece_de_Ppor => data.receptoresProgesterona
  | .FIGO2023 => lookupOr FIGO_MAP data.estadioFIGO 1
  | .mmr_deficient =>
      lookupOr MMR_MAP
        (if data.mmrStatus = "" then "unknown" else data.mmrStatus) 0

/-- Function `standardize` from riskCalculator.ts. -/
def standardize (value mean std : ℚ) : ℚ := (value - mean) / std

/-- One loop iteration's `coef * standardized` term. -/
def contributionOf (v : Feature → ℚ) (f : Feature) : ℚ :=
  COEFFICIENTS f * standardize (v f) (MEANS f) (STDS f)

/-- The accumulator `logit` of the loop in `calculateRisk`: it starts at
`INTERCEPT` and adds each feature's contribution in `FEATURES` order. -/
def logitOf (v : Feature → ℚ) : ℚ :=
  FEATURES.foldl (fun acc f => acc + contributionOf v f) INTERCEPT

/-- Contribution direction tag (±0.1 threshold in the source). -/
inductive Direction
  | positive
  | negative
  | neutral
deriving DecidableEq, Repr

/-- Record `FactorContribution` (riskCalculator.ts), restricted to its
non-display fields. -/
structure FactorContribution where
  feature : Feature
  name : String
  value : ℚ
  contribution : ℚ
  normalizedContribution : ℤ
  direction : Direction
  importance : ℚ
deriving DecidableEq, Repr

/-- The contribution list as pushed by the loop (before normalization
and sort): one entry per iterated feature whose key is present in
`FEATURE_INFO` (`if (!info) continue`). -/
def contributionsRawOf (v : Feature → ℚ) : List FactorContribution :=
  FEATURES.filterMap fun f =>
    (FEATURE_INFO.lookup f).map fun info =>
      { feature := f
        name := info.1
        value := v f
        contribution := contributionOf v f
        normalizedContribution := 0
        direction :=
          if contributionOf v f > 0.1 then .positive
          else if contributionOf v f < -0.1 then .negative
          else .neutral
        importance := info.2 }

/-- The source's `Math.max(...contributions.map(c => Math.abs(c.contribution)), 0.001)`. -/
def maxAbsOf (l : List FactorContribution) : ℚ :=
  l.foldr (fun c acc => max |c.contribution| acc) 0.001

/-- The normalization pass (`contributions.forEach`): JavaScript
`Math.round(x)` is `⌊x + 1/2⌋`, which is Mathlib's `round`. -/
def contributionsOf (v : Feature → ℚ) : List FactorContribution :=
  let raw := contributionsRawOf v
  let m := maxAbsOf raw
  raw.map fun c =>
    { c with normalizedContribution := round ((c.contribution / m) * 50 + 50) }

/-- The sort comparator `(a, b) => Math.abs(b.contribution) - Math.abs(a.contribution)`
(descending by absolute contribution). -/
def byAbsDesc (a b : FactorContribution) : Bool :=
  decide (|b.contribution| ≤ |a.contribution|)

/-- The normalized contribution list after `contributions.sort(...)`. -/
def factorContributionsOf (v : Feature → ℚ) : List FactorContribution :=
  (contributionsOf v).mergeSort byAbsDesc

/-- Function `sigmoid` from riskCalculator.ts. -/
noncomputable def sigmoid (x : ℝ) : ℝ := 1 / (1 + Real.exp (-x))

/-- The four risk tiers. -/
inductive RiskLevel
  | low
  | intermediate
  | high
  | veryHigh
deriving DecidableEq, Repr

/-- The tier cascade of `calculateRisk`:
`p < 0.10 → low`, `else p < 0.25 → intermediate`,
`else p < 0.50 → high`, `else very-high`. -/
noncomputable def riskLevelOf (p : ℝ) : RiskLevel :=
  if p < 0.10 then .low
  else if p < 0.25 then .intermediate
  else if p < 0.50 then .high
  else .veryHigh

/-- The result record (`RiskResult`), restricted to the numeric fields
and the tier; every modelled field is a function of the feature vector. -/
structure RiskResult where
  percentage : ℝ
  riskLevel : RiskLevel
  factorContributions : List FactorContribution

/-- The scoring pipeline downstream of `numericData`. -/
noncomputable def resultOf (v : Feature → ℚ) : RiskResult :=
  let logit : ℚ := logitOf v
  let probability : ℝ := sigmoid (logit : ℝ)
  { percentage := (round (probability * 100 * 10) : ℝ) / 10
    riskLevel := riskLevelOf probability
    factorContributions := factorContributionsOf v }

/-- Function `calculateRisk` (riskCalculator.ts), restricted to the modelled
fields. -/
noncomputable def calculateRisk (data : FormData) : RiskResult :=
  resultOf (numericData data)

/-- The logit computed for a form record. -/
def logit (data : FormData) : ℚ := logitOf (numericData data)

/-- The `maxAbsContribution` value computed for a form record. -/
def maxAbsContribution (data : FormData) : ℚ :=
  maxAbsOf (contributionsRawOf (numericData data))

/-- The sigmoid probability computed for a form record. -/
noncomputable def probability (data : FormData) : ℝ :=
  sigmoid ((logit data : ℚ) : ℝ)

/-- Includes test used by `getMyometrialValue` in the alternate
calculator (JavaScript `String.prototype.includes`): substring
containment. -/
def jsIncludes (s pat : String) : Bool :=
  decide (pat.toList <:+: s.toList)

/-- JavaScript `toLowerCase`, character by character. -/
def jsToLower (s : String) : String :=
  String.mk (s.toList.map Char.toLower)

/-- Myometrial-invasion keyword matcher of the alternate calculator
module (src/unnamed/part_001, `getMyometrialValue`): lowercases the raw
value and collapses it onto an ordinal scale by substring matching. -/
def getMyometrialValue (val : String) : ℚ :=
  let v := jsToLower val
  if jsIncludes v "sin" || jsIncludes v "<50" || jsIncludes v "menor50" then 0
  else if jsIncludes v "≥50" || jsIncludes v "mayor50" then 1
  else if jsIncludes v "serosa" then 1
  else 0

/-- One labeled cohort record of BatchValidation
(src/unnamed/part_005). -/
structure TestCase where
  id : ℕ
  actualRecurrence : Bool
  followUpMonths : ℚ
  data : FormData

/-- Confusion-matrix tag assigned to each case. -/
inductive CaseType
  | TP
  | TN
  | FP
  | FN
deriving DecidableEq, Repr

/-- Per-case classification of BatchValidation: the decision threshold is
`risk.percentage > 25`, compared against the recorded outcome. -/
noncomputable def classifyCase (c : TestCase) : CaseType :=
  if (calculateRisk c.data).percentage > 25 then
    (if c.actualRecurrence then .TP else .FP)
  else
    (if c.actualRecurrence then .FN else .TN)

/-- JavaScript division as used in the metrics block: a zero denominator
gives a non-number (`0 / 0` is `NaN`; every division in the metrics block
has a numerator that is zero whenever its denominator is), modelled as
`none`. -/
def jsDiv (a b : ℚ) : Option ℚ := if b = 0 then none else some (a / b)

/-- JavaScript `x || 0` applied to a division result: `NaN` is falsy, so
it becomes `0`; a zero quotient also maps to `0` (itself). -/
def jsOrZero (x : Option ℚ) : ℚ := x.getD 0

/-- The aggregated metrics of BatchValidation.  `accuracy` keeps the
raw JavaScript division (it has no `|| 0` guard in the source), the four
other ratios are guarded. -/
structure ValidationMetrics where
  total : ℕ
  correct : ℕ
  tp : ℕ
  tn : ℕ
  fp : ℕ
  fn : ℕ
  accuracy : Option ℚ
  sensitivity : ℚ
  specificity : ℚ
  precision : ℚ
  f1 : ℚ

/-- The metrics computation of BatchValidation (src/unnamed/part_005):
`accuracy = correct / total` (unguarded), `sensitivity = tp/(tp+fn) || 0`,
`specificity = tn/(tn+fp) || 0`, `precision = tp/(tp+fp) || 0`,
`f1 = 2*(precision*sensitivity)/(precision+sensitivity) || 0`. -/
noncomputable def metricsOf (cases : List TestCase) : ValidationMetrics :=
  let ts := cases.map classifyCase
  let total := ts.length
  let tp := ts.count .TP
  let tn := ts.count .TN
  let fp := ts.count .FP
  let fn := ts.count .FN
  let correct := (ts.filter fun t => t == CaseType.TP || t == CaseType.TN).length
  let sensitivity := jsOrZero (jsDiv tp (tp + fn))
  let specificity := jsOrZero (jsDiv tn (tn + fp))
  let precision := jsOrZero (jsDiv tp (tp + fp))
  { total := total
    correct := correct
    tp := tp
    tn := tn
    fp := fp
    fn := fn
    accuracy := jsDiv correct total
    sensitivity := sensitivity
    specificity := specificity
    precision := precision
    f1 := jsOrZero (jsDiv (2 * (precision * sensitivity)) (precision + sensitivity)) }

/-- A baseline observation used as concrete input in several witnesses:
every categorical value is a key of its code table. -/
def obs0 : FormData :=
  { edad := 60
    imc := 28
    gradoHistologico := "grado1"
    tamanoTumoral := 3
    infiltracionMiometrial := "sin"
    lvsi := "no"
    infiltracionCervical := "no"
    estadioFIGO := "IA"
    p53 := "normal"
    mmrStatus := "proficient"
    receptoresEstrogenos := 80
    receptoresProgesterona := 70 }

/-- Observation with unmapped raw values in every categorical field
(used as concrete input in witnesses). -/
def obsUnmapped : FormData :=
  { edad := 60
    imc := 28
    gradoHistologico := "desconocido"
    tamanoTumoral := 3
    infiltracionMiometrial := "desconocido"
    lvsi := "desconocido"
    infiltracionCervical := "desconocido"
    estadioFIGO := "X"
    p53 := "desconocido"
    mmrStatus := "desconocido"
    receptoresEstrogenos := 80
    receptoresProgesterona := 70 }

/-! ## Helper lemmas -/

/-- Folding addition of mapped values over a list equals the initial
value plus the sum of the mapped list. -/
theorem foldl_add_eq {α : Type} (g : α → ℚ) (l : List α) (i : ℚ) :
    l.foldl (fun acc f => acc + g f) i = i + (l.map g).sum := by
  induction l generalizing i with
  | nil => simp
  | cons a t ih => simp [ih, add_assoc]

/-- The accumulated logit is the intercept plus the sum of all
per-feature contributions. -/
theorem logitOf_eq_sum (v : Feature → ℚ) :
    logitOf v = INTERCEPT + (FEATURES.map (contributionOf v)).sum :=
  foldl_add_eq _ _ _

/-- The loop pushes one record per feature, carrying exactly the
per-feature contribution term (no feature of `FEATURES` is skipped,
because `FEATURE_INFO` covers every coefficient key). -/
theorem raw_map_contribution (v : Feature → ℚ) :
    (contributionsRawOf v).map (·.contribution) = FEATURES.map (contributionOf v) := rfl

/-- Normalization rewrites only `normalizedContribution`; the
`contribution` fields are unchanged. -/
theorem contributionsOf_map_contribution (v : Feature → ℚ) :
    (contributionsOf v).map (·.contribution) = FEATURES.map (contributionOf v) := rfl

/-- Sorting permutes the contribution records. -/
theorem factorContributions_perm (v : Feature → ℚ) :
    (factorContributionsOf v).Perm (contributionsOf v) :=
  List.mergeSort_perm _ _

/-- The result's contribution list is the sorted, normalized list. -/
theorem calculateRisk_factorContributions (d : FormData) :
    (calculateRisk d).factorContributions = factorContributionsOf (numericData d) := rfl

/-- The contributions reported in the result sum to the logit minus the
intercept, exactly. -/
theorem sum_factorContributions (d : FormData) :
    (((calculateRisk d).factorContributions.map (·.contribution)).sum : ℚ)
      = logit d - INTERCEPT := by
  have hperm : ((factorContributionsOf (numericData d)).map (·.contribution)).Perm
      ((contributionsOf (numericData d)).map (·.contribution)) :=
    (factorContributions_perm (numericData d)).map _
  rw [calculateRisk_factorContributions, hperm.sum_eq,
    contributionsOf_map_contribution, logit, logitOf_eq_sum]
  ring

/-- Every entry of the standard-deviation table is positive. -/
theorem stds_pos : ∀ f : Feature, 0 < STDS f := by
  intro f; cases f <;> norm_num [STDS]

/-- The sigmoid is strictly positive. -/
theorem sigmoid_pos (x : ℝ) : 0 < sigmoid x := by
  have h := Real.exp_pos (-x)
  rw [sigmoid]
  positivity

/-- The sigmoid is strictly below one. -/
theorem sigmoid_lt_one (x : ℝ) : sigmoid x < 1 := by
  have h := Real.exp_pos (-x)
  rw [sigmoid, div_lt_one (by linarith)]
  linarith

/-- The sigmoid is monotone. -/
theorem sigmoid_mono {x y : ℝ} (h : x ≤ y) : sigmoid x ≤ sigmoid y := by
  have he : Real.exp (-y) ≤ Real.exp (-x) := Real.exp_le_exp.mpr (by linarith)
  have hy := Real.exp_pos (-y)
  rw [sigmoid, sigmoid]
  exact one_div_le_one_div_of_le (by linarith) (by linarith)

/-- The epsilon floor bounds the max-of-absolute-contributions from
below, for any contribution list. -/
theorem le_maxAbsOf (l : List FactorContribution) : (0.001 : ℚ) ≤ maxAbsOf l := by
  induction l with
  | nil => exact le_refl _
  | cons c t ih =>
      calc (0.001 : ℚ) ≤ maxAbsOf t := ih
        _ ≤ max |c.contribution| (maxAbsOf t) := le_max_right _ _

/-- A case whose recorded outcome is negative is tagged FP or TN,
whatever the predicted probability is. -/
theorem classify_neg (c : TestCase) (h : c.actualRecurrence = false) :
    classifyCase c = .FP ∨ classifyCase c = .TN := by
  unfold classifyCase
  rw [h]
  by_cases hp : (calculateRisk c.data).percentage > 25
  · left; rw [if_pos hp]; rfl
  · right; rw [if_neg hp]; rfl

/-- A guarded count ratio with a zero denominator evaluates to zero. -/
theorem jsGuard_zero_den (a b : ℕ) (hab : a + b = 0) :
    jsOrZero (jsDiv (a : ℚ) ((a : ℚ) + (b : ℚ))) = 0 := by
  obtain ⟨ha, hb⟩ := Nat.add_eq_zero.mp hab
  subst ha; subst hb
  simp [jsDiv, jsOrZero]

/-- The guarded F1 expression with a zero denominator evaluates to
zero. -/
theorem jsGuard_zero_den_q (x y : ℚ) (h : x + y = 0) :
    jsOrZero (jsDiv (2 * (x * y)) (x + y)) = 0 := by
  rw [jsDiv, if_pos h]
  rfl

/-- The logits of `obs0` with p53 set to "nodisponible" (code 3) and of
`obs0` itself (p53 "normal", the fallback default code 1) differ. -/
theorem logit_p53_ne :
    logit { obs0 with p53 := "nodisponible" } ≠ logit obs0 := by
  simp [logit, logitOf, numericData, FEATURES, List.foldl, contributionOf,
    standardize, COEFFICIENTS, MEANS, STDS, INTERCEPT, lookupOr, GRADO_MAP,
    INFILTRACION_MAP, LVSI_MAP, CERVIX_MAP, P53_MAP, MMR_MAP, FIGO_MAP,
    List.lookup, obs0]
  norm_num

/-! ## Claims -/

/-- C1: for every well-typed observation, the model intercept plus the
sum of the signed contributions of all features reported in the
`ScoringResult` equals the computed logit within a floating tolerance of
`1e-9` (in the exact rational model the reconciliation is exact). -/
theorem reconciliation_invariant (d : FormData) :
    |INTERCEPT + ((calculateRisk d).factorContributions.map (·.contribution)).sum
      - logit d| ≤ 1 / 1000000000 := by
  rw [sum_factorContributions]
  have h : INTERCEPT + (logit d - INTERCEPT) - logit d = 0 := by ring
  rw [h]
  norm_num

/-- C2: the risk-tier classification evaluates the probability against
ordered half-open intervals with strict upper bounds: `p < 0.10` is Low,
`0.10 ≤ p < 0.25` is Intermediate, `0.25 ≤ p < 0.50` is High and
`0.50 ≤ p` is Very-High; in particular the boundary values `0.10`,
`0.25` and `0.50` classify as Intermediate, High and Very-High
respectively, never the lower tier.  The first conjunct ties the
classifier to the scoring pipeline. -/
theorem riskLevel_intervals :
    (∀ d : FormData, (calculateRisk d).riskLevel = riskLevelOf (probability d)) ∧
    (∀ p : ℝ,
      (riskLevelOf p = .low ↔ p < 0.10) ∧
      (riskLevelOf p = .intermediate ↔ 0.10 ≤ p ∧ p < 0.25) ∧
      (riskLevelOf p = .high ↔ 0.25 ≤ p ∧ p < 0.50) ∧
      (riskLevelOf p = .veryHigh ↔ 0.50 ≤ p)) ∧
    riskLevelOf 0.10 = .intermediate ∧
    riskLevelOf 0.25 = .high ∧
    riskLevelOf 0.50 = .veryHigh := by
  have hmain : ∀ p : ℝ,
      (riskLevelOf p = .low ↔ p < 0.10) ∧
      (riskLevelOf p = .intermediate ↔ 0.10 ≤ p ∧ p < 0.25) ∧
      (riskLevelOf p = .high ↔ 0.25 ≤ p ∧ p < 0.50) ∧
      (riskLevelOf p = .veryHigh ↔ 0.50 ≤ p) := by
    intro p
    unfold riskLevelOf
    by_cases h1 : p < 0.10
    · rw [if_pos h1]
      exact ⟨⟨fun _ => h1, fun _ => rfl⟩,
        ⟨fun hh => absurd hh (by decide), fun hh => absurd hh.1 (not_le.mpr h1)⟩,
        ⟨fun hh => absurd hh (by decide), fun hh => absurd hh.1 (by norm_num; linarith)⟩,
        ⟨fun hh => absurd hh (by decide), fun hh => absurd hh (by norm_num; linarith)⟩⟩
    · by_cases h2 : p < 0.25
      · rw [if_neg h1, if_pos h2]
        exact ⟨⟨fun hh => absurd hh (by decide), fun hh => absurd hh h1⟩,
          ⟨fun _ => ⟨le_of_not_lt h1, h2⟩, fun _ => rfl⟩,
          ⟨fun hh => absurd hh (by decide), fun hh => absurd hh.1 (not_le.mpr h2)⟩,
          ⟨fun hh => absurd hh (by decide), fun hh => absurd hh (by norm_num; linarith)⟩⟩
      · by_cases h3 : p < 0.50
        · rw [if_neg h1, if_neg h2, if_pos h3]
          exact ⟨⟨fun hh => absurd hh (by decide), fun hh => absurd hh h1⟩,
            ⟨fun hh => absurd hh (by decide), fun hh => absurd hh.2 h2⟩,
            ⟨fun _ => ⟨le_of_not_lt h2, h3⟩, fun _ => rfl⟩,
            ⟨fun hh => absurd hh (by decide), fun hh => absurd hh (not_le.mpr h3)⟩⟩
        · rw [if_neg h1, if_neg h2, if_neg h3]
          exact ⟨⟨fun hh => absurd hh (by decide), fun hh => absurd hh h1⟩,
            ⟨fun hh => absurd hh (by decide), fun hh => absurd hh.2 h2⟩,
            ⟨fun hh => absurd hh (by decide), fun hh => absurd hh.2 h3⟩,
            ⟨fun _ => le_of_not_lt h3, fun _ => rfl⟩⟩
  refine ⟨fun d => rfl, hmain, ?_, ?_, ?_⟩
  · exact (hmain 0.10).2.1.mpr ⟨le_refl _, by norm_num⟩
  · exact (hmain 0.25).2.2.1.mpr ⟨le_refl _, by norm_num⟩
  · exact (hmain 0.50).2.2.2.mpr (le_refl _)

/-- C3 counterexample: on the empty cohort the accuracy denominator
(`total`) is zero and `accuracy = correct / total` is the JavaScript
`NaN` (modelled `none`), not 0 — the claim's "each derived validation
ratio whose denominator is zero is reported as 0" fails for accuracy. -/
theorem metrics_counterexample :
    (metricsOf []).total = 0 ∧ (metricsOf []).accuracy = none ∧
    (metricsOf []).accuracy ≠ some 0 := by
  refine ⟨rfl, ?_, ?_⟩ <;> simp [metricsOf, jsDiv]

/-- C3 amended: the guarded ratios — sensitivity, specificity,
precision and F1 — report 0 whenever their denominator is zero, and a
cohort with no actual-positive cases yields sensitivity 0; accuracy,
however, carries no `|| 0` guard (see the counterexample: on the empty
cohort it is `NaN`, not 0). -/
theorem metrics_amended (cases : List TestCase) :
    ((metricsOf cases).tp + (metricsOf cases).fn = 0 →
      (metricsOf cases).sensitivity = 0) ∧
    ((metricsOf cases).tn + (metricsOf cases).fp = 0 →
      (metricsOf cases).specificity = 0) ∧
    ((metricsOf cases).tp + (metricsOf cases).fp = 0 →
      (metricsOf cases).precision = 0) ∧
    ((metricsOf cases).precision + (metricsOf cases).sensitivity = 0 →
      (metricsOf cases).f1 = 0) ∧
    ((∀ c ∈ cases, c.actualRecurrence = false) →
      (metricsOf cases).sensitivity = 0) := by
  refine ⟨?_, ?_, ?_, ?_, ?_⟩
  · intro h; exact jsGuard_zero_den _ _ h
  · intro h; exact jsGuard_zero_den _ _ h
  · intro h; exact jsGuard_zero_den _ _ h
  · intro h; exact jsGuard_zero_den_q _ _ h
  · intro hneg
    have htp : ((cases.map classifyCase).count CaseType.TP) = 0 := by
      rw [List.count_eq_zero]
      intro hmem
      obtain ⟨c, hc, hcc⟩ := List.mem_map.mp hmem
      rcases classify_neg c (hneg c hc) with h' | h' <;>
        exact absurd (h'.symm.trans hcc) (by decide)
    have hfn : ((cases.map classifyCase).count CaseType.FN) = 0 := by
      rw [List.count_eq_zero]
      intro hmem
      obtain ⟨c, hc, hcc⟩ := List.mem_map.mp hmem
      rcases classify_neg c (hneg c hc) with h' | h' <;>
        exact absurd (h'.symm.trans hcc) (by decide)
    exact jsGuard_zero_den _ _ (by rw [htp, hfn])

/-- C3 witness: the amended theorem instantiated on the empty cohort,
with every hypothesis discharged. -/
theorem metrics_amended_witness :
    (metricsOf []).tp + (metricsOf []).fn = 0 ∧
    (metricsOf []).tn + (metricsOf []).fp = 0 ∧
    (metricsOf []).tp + (metricsOf []).fp = 0 ∧
    (metricsOf []).precision + (metricsOf []).sensitivity = 0 ∧
    (∀ c ∈ ([] : List TestCase), c.actualRecurrence = false) ∧
    (metricsOf []).sensitivity = 0 ∧
    (metricsOf []).specificity = 0 ∧
    (metricsOf []).precision = 0 ∧
    (metricsOf []).f1 = 0 :=
  ⟨rfl, rfl, rfl, by simp [metricsOf, jsDiv, jsOrZero], by simp,
   (metrics_amended []).1 rfl,
   (metrics_amended []).2.1 rfl,
   (metrics_amended []).2.2.1 rfl,
   (metrics_amended []).2.2.2.1 (by simp [metricsOf, jsDiv, jsOrZero])⟩

/-- C4 counterexample: p53 "nodisponible" is an explicit table entry
with its own code 3, distinct from the fallback default code 1
("normal"), so an observation with p53 "nodisponible" produces a
different `ScoringResult` (different contribution list, hence different
record) than one supplying the default code. -/
theorem unknown_category_counterexample :
    numericData { obs0 with p53 := "nodisponible" } .p53_ihq = 3 ∧
    numericData obs0 .p53_ihq = 1 ∧
    calculateRisk { obs0 with p53 := "nodisponible" } ≠ calculateRisk obs0 := by
  refine ⟨by decide, by decide, fun h => ?_⟩
  have hs := congrArg (fun r => (r.factorContributions.map (·.contribution)).sum) h
  simp only [] at hs
  rw [sum_factorContributions, sum_factorContributions] at hs
  exact logit_p53_ne (by linarith)

/-- C4 amended: any raw categorical value absent from its code table
maps to the field's fixed default code without error, and an observation
with MMR status "unknown" produces exactly the same `ScoringResult` as
one supplying the default code "proficient"; p53 "nodisponible",
however, is an explicit table entry with its own code 3, distinct from
the unmapped-value default 1. -/
theorem unknown_category_amended :
    (∀ d : FormData, GRADO_MAP.lookup d.gradoHistologico = none →
      numericData d .grado_histologi = 1) ∧
    (∀ d : FormData, INFILTRACION_MAP.lookup d.infiltracionMiometrial = none →
      numericData d .infiltracion_mi = 1) ∧
    (∀ d : FormData, LVSI_MAP.lookup d.lvsi = none →
      numericData d .afectacion_linf = 0) ∧
    (∀ d : FormData, CERVIX_MAP.lookup d.infiltracionCervical = none →
      numericData d .infilt_estr_cervix = 0) ∧
    (∀ d : FormData, P53_MAP.lookup d.p53 = none →
      numericData d .p53_ihq = 1) ∧
    (∀ d : FormData, FIGO_MAP.lookup d.estadioFIGO = none →
      numericData d .FIGO2023 = 1) ∧
    (∀ d : FormData,
      MMR_MAP.lookup (if d.mmrStatus = "" then "unknown" else d.mmrStatus) = none →
      numericData d .mmr_deficient = 0) ∧
    (∀ d : FormData,
      calculateRisk { d with mmrStatus := "unknown" }
        = calculateRisk { d with mmrStatus := "proficient" }) ∧
    (∀ d : FormData, d.p53 = "nodisponible" → numericData d .p53_ihq = 3) := by
  refine ⟨?_, ?_, ?_, ?_, ?_, ?_, ?_, ?_, ?_⟩
  · intro d h; simp [numericData, lookupOr, h]
  · intro d h; simp [numericData, lookupOr, h]
  · intro d h; simp [numericData, lookupOr, h]
  · intro d h; simp [numericData, lookupOr, h]
  · intro d h; simp [numericData, lookupOr, h]
  · intro d h; simp [numericData, lookupOr, h]
  · intro d h; simp [numericData, lookupOr, h]
  · intro d
    have hv : numericData { d with mmrStatus := "unknown" }
        = numericData { d with mmrStatus := "proficient" } := by
      funext g; cases g <;> rfl
    show resultOf _ = resultOf _
    rw [hv]
  · intro d h
    show lookupOr P53_MAP d.p53 1 = 3
    rw [h]
    decide

/-- C4 witness: the amended theorem instantiated on a concrete
observation whose every categorical raw value is unmapped, on `obs0`
for the MMR equivalence, and on the "nodisponible" variant of `obs0`. -/
theorem unknown_category_amended_witness :
    numericData obsUnmapped .grado_histologi = 1 ∧
    numericData obsUnmapped .infiltracion_mi = 1 ∧
    numericData obsUnmapped .afectacion_linf = 0 ∧
    numericData obsUnmapped .infilt_estr_cervix = 0 ∧
    numericData obsUnmapped .p53_ihq = 1 ∧
    numericData obsUnmapped .FIGO2023 = 1 ∧
    numericData obsUnmapped .mmr_deficient = 0 ∧
    calculateRisk { obs0 with mmrStatus := "unknown" }
      = calculateRisk { obs0 with mmrStatus := "proficient" } ∧
    numericData { obs0 with p53 := "nodisponible" } .p53_ihq = 3 :=
  ⟨unknown_category_amended.1 obsUnmapped (by decide),
   unknown_category_amended.2.1 obsUnmapped (by decide),
   unknown_category_amended.2.2.1 obsUnmapped (by decide),
   unknown_category_amended.2.2.2.1 obsUnmapped (by decide),
   unknown_category_amended.2.2.2.2.1 obsUnmapped (by decide),
   unknown_category_amended.2.2.2.2.2.1 obsUnmapped (by decide),
   unknown_category_amended.2.2.2.2.2.2.1 obsUnmapped (by decide),
   unknown_category_amended.2.2.2.2.2.2.2.1 obs0,
   unknown_category_amended.2.2.2.2.2.2.2.2 { obs0 with p53 := "nodisponible" } rfl⟩

/-- C5 counterexample: in the serving calculator's `INFILTRACION_MAP`,
"serosa" maps to 3 and the deepest-invasion category "mayor50" maps to
2, so two observations identical except for these raw values produce
different `infiltracion_mi` feature values — the claim fails on
riskCalculator.ts. -/
theorem serosa_counterexample :
    numericData { obs0 with infiltracionMiometrial := "serosa" } .infiltracion_mi = 3 ∧
    numericData { obs0 with infiltracionMiometrial := "mayor50" } .infiltracion_mi = 2 ∧
    numericData { obs0 with infiltracionMiometrial := "serosa" } .infiltracion_mi ≠
      numericData { obs0 with infiltracionMiometrial := "mayor50" } .infiltracion_mi :=
  ⟨by decide, by decide, by decide⟩

/-- C5 amended: in riskCalculator.ts "serosa" is its own, strictly
deeper ordinal tier (3) above the ≥50% category (2); it is the alternate
module's keyword matcher `getMyometrialValue` (src/unnamed/part_001)
that collapses "serosa" onto the same ordinal value as "mayor50" (both
map to 1). -/
theorem serosa_amended :
    (∀ d : FormData, d.infiltracionMiometrial = "serosa" →
      numericData d .infiltracion_mi = 3) ∧
    (∀ d : FormData, d.infiltracionMiometrial = "mayor50" →
      numericData d .infiltracion_mi = 2) ∧
    getMyometrialValue "serosa" = 1 ∧
    getMyometrialValue "mayor50" = 1 := by
  refine ⟨?_, ?_, by decide, by decide⟩
  · intro d h
    show lookupOr INFILTRACION_MAP d.infiltracionMiometrial 1 = 3
    rw [h]; decide
  · intro d h
    show lookupOr INFILTRACION_MAP d.infiltracionMiometrial 1 = 2
    rw [h]; decide

/-- C5 witness: the amended theorem instantiated on the concrete
"serosa" and "mayor50" variants of `obs0`. -/
theorem serosa_amended_witness :
    numericData { obs0 with infiltracionMiometrial := "serosa" } .infiltracion_mi = 3 ∧
    numericData { obs0 with infiltracionMiometrial := "mayor50" } .infiltracion_mi = 2 :=
  ⟨serosa_amended.1 _ rfl, serosa_amended.2.1 _ rfl⟩

/-- C6: for two observations whose feature vectors differ only in one
feature, if that feature's coefficient is positive and the second
observation has the larger feature value — or the coefficient is
negative and the second observation has the smaller feature value —
then the second probability is at least the first. -/
theorem pipeline_monotonicity (d1 d2 : FormData) (f : Feature)
    (hothers : ∀ g : Feature, g ≠ f → numericData d1 g = numericData d2 g)
    (hsign : (0 < COEFFICIENTS f ∧ numericData d1 f ≤ numericData d2 f) ∨
      (COEFFICIENTS f < 0 ∧ numericData d2 f ≤ numericData d1 f)) :
    probability d1 ≤ probability d2 := by
  have hcontrib : ∀ g : Feature,
      contributionOf (numericData d1) g ≤ contributionOf (numericData d2) g := by
    intro g
    by_cases hg : g = f
    · subst hg
      rcases hsign with ⟨hc, hv⟩ | ⟨hc, hv⟩
      · unfold contributionOf standardize
        exact mul_le_mul_of_nonneg_left
          ((div_le_div_iff_of_pos_right (stds_pos g)).mpr (by linarith)) hc.le
      · unfold contributionOf standardize
        exact mul_le_mul_of_nonpos_left
          ((div_le_div_iff_of_pos_right (stds_pos g)).mpr (by linarith)) hc.le
    · exact le_of_eq (by rw [contributionOf, contributionOf, hothers g hg])
  have hlogit : logit d1 ≤ logit d2 := by
    rw [logit, logit, logitOf_eq_sum, logitOf_eq_sum]
    exact add_le_add_left (List.sum_le_sum (fun g _ => hcontrib g)) _
  exact sigmoid_mono (by exact_mod_cast hlogit)

/-- C6 witness: increasing age (positive coefficient) from 60 to 70,
holding everything else fixed, does not decrease the probability. -/
theorem pipeline_monotonicity_witness :
    (0 < COEFFICIENTS .edad ∧
      numericData obs0 .edad ≤ numericData { obs0 with edad := 70 } .edad) ∧
    probability obs0 ≤ probability { obs0 with edad := 70 } := by
  have hsign : 0 < COEFFICIENTS .edad ∧
      numericData obs0 .edad ≤ numericData { obs0 with edad := 70 } .edad :=
    ⟨by norm_num [COEFFICIENTS], by norm_num [numericData, obs0]⟩
  exact ⟨hsign, pipeline_monotonicity obs0 _ .edad (by decide) (Or.inl hsign)⟩

/-- C7: for every observation the probability is strictly inside
`(0, 1)`, the reported percentage equals
`round(probability * 1000) / 10`, and the percentage lies in
`[0, 100]`. -/
theorem probability_bounds (d : FormData) :
    0 < probability d ∧ probability d < 1 ∧
    (calculateRisk d).percentage = (round (probability d * 1000) : ℝ) / 10 ∧
    0 ≤ (calculateRisk d).percentage ∧ (calculateRisk d).percentage ≤ 100 := by
  have h0 : 0 < probability d := sigmoid_pos _
  have h1 : probability d < 1 := sigmoid_lt_one _
  have hp : (calculateRisk d).percentage
      = (round (probability d * 100 * 10) : ℝ) / 10 := rfl
  have harg : probability d * 100 * 10 = probability d * 1000 := by ring
  have hlow : (0 : ℤ) ≤ round (probability d * 1000) := by
    rw [round_eq]
    exact Int.floor_nonneg.mpr (by nlinarith)
  have hhigh : round (probability d * 1000) ≤ 1000 := by
    rw [round_eq]
    have hb : probability d * 1000 + 1 / 2 ≤ 1000.5 := by nlinarith
    calc ⌊probability d * 1000 + 1 / 2⌋ ≤ ⌊(1000.5 : ℝ)⌋ := Int.floor_le_floor hb
      _ = 1000 := by norm_num [Int.floor_eq_iff]
  refine ⟨h0, h1, by rw [hp, harg], ?_, ?_⟩
  · rw [hp, harg]
    have hc : (0 : ℝ) ≤ (round (probability d * 1000) : ℝ) := by exact_mod_cast hlow
    linarith
  · rw [hp, harg]
    have hc : ((round (probability d * 1000) : ℤ) : ℝ) ≤ 1000 := by exact_mod_cast hhigh
    linarith

/-- C8: the what-if recomputation is deterministic and idempotent:
running the full pipeline on an unmodified copy of the original
observation reproduces the original result exactly, in particular the
percentage and the risk tier. -/
theorem whatif_idempotent (d dcopy : FormData) (h : dcopy = d) :
    calculateRisk dcopy = calculateRisk d ∧
    (calculateRisk dcopy).percentage = (calculateRisk d).percentage ∧
    (calculateRisk dcopy).riskLevel = (calculateRisk d).riskLevel := by
  subst h
  exact ⟨rfl, rfl, rfl⟩

/-- C8 witness: the idempotence theorem instantiated on `obs0` and its
unmodified copy. -/
theorem whatif_idempotent_witness :
    obs0 = obs0 ∧ (calculateRisk obs0).percentage = (calculateRisk obs0).percentage ∧
    (calculateRisk obs0).riskLevel = (calculateRisk obs0).riskLevel :=
  ⟨rfl, (whatif_idempotent obs0 obs0 rfl).2⟩

/-- C9: the normalization floor makes `maxAbsContribution` at least
0.001 (so the division can never be by zero, even when every
contribution is approximately 0), and every reported normalized display
value equals `round((contribution / maxAbsContribution) * 50 + 50)`. -/
theorem normalization_safe (d : FormData) :
    (0.001 : ℚ) ≤ maxAbsContribution d ∧ 0 < maxAbsContribution d ∧
    (calculateRisk d).factorContributions.map (·.normalizedContribution)
      = (calculateRisk d).factorContributions.map
          (fun c => round ((c.contribution / maxAbsContribution d) * 50 + 50)) := by
  refine ⟨le_maxAbsOf _, lt_of_lt_of_le (by norm_num) (le_maxAbsOf _), ?_⟩
  rw [calculateRisk_factorContributions]
  apply List.map_congr_left
  intro c hc
  have hc' : c ∈ contributionsOf (numericData d) :=
    ((factorContributions_perm _).mem_iff).mp hc
  simp only [contributionsOf] at hc'
  obtain ⟨c', _, rfl⟩ := List.mem_map.mp hc'
  rfl

/-- C10: for every observation the reported contribution list has
exactly one entry per model feature — all 12 coefficient keys, none
skipped, none duplicated. -/
theorem factorContributions_cover (d : FormData) :
    (calculateRisk d).factorContributions.length = 12 ∧
    ∀ f : Feature, ((calculateRisk d).factorContributions.map (·.feature)).count f = 1 := by
  constructor
  · rw [calculateRisk_factorContributions]
    show ((contributionsOf (numericData d)).mergeSort byAbsDesc).length = 12
    rw [List.length_mergeSort]
    rfl
  · intro f
    have hperm : (((factorContributionsOf (numericData d)).map (·.feature))).Perm
        ((contributionsOf (numericData d)).map (·.feature)) :=
      (factorContributions_perm _).map _
    rw [calculateRisk_factorContributions, hperm.count_eq]
    have h2 : (contributionsOf (numericData d)).map (·.feature) = FEATURES := rfl
    rw [h2]
    cases f <;> rfl

end NEST
